import Mathlib

/-!
Verification of the `ptelastic` probe suite against its specification.

The development shallowly embeds the parts of the Python source that the
claims touch:

* `ptelastic/modules/is_elastic.py` — the availability classifier
  (`IsElastic.run`, `IsElastic._check_text`), including Python's
  exception behaviour for dictionary lookups (`KeyError`), list indexing
  (`IndexError`), subscripting non-containers (`TypeError`) and
  `Response.json()` on an unparseable body (`JSONDecodeError`).
* `ptelastic/modules/sw.py` — `SwTest.run`, which wraps the three
  enumerations in separate `try/except Exception` handlers.
* `ptelastic/modules/users.py` — the roles-dictionary construction in
  `Users.run` (the `zip(user['roles'], [[]])` expression) and the role
  lines printed by `Users._print_user`.

Python values coming out of `json` are modelled by the inductive `Json`;
Python subscripting is modelled by `Except PyExc` computations whose
error constructor records exactly which exception class Python raises,
so that `try/except KeyError` can be embedded as a `match` that handles
`keyError` and re-raises everything else.
-/

namespace Ptelastic

/-- A JSON value as produced by Python's `json` parser. -/
inductive Json where
  | null
  | bool (b : Bool)
  | num (n : Int)
  | str (s : String)
  | arr (elems : List Json)
  | obj (fields : List (String × Json))
deriving Repr

/-- The Python exception classes that the embedded code can raise:
`KeyError`, `IndexError`, `TypeError`, and `requests.exceptions.JSONDecodeError`
(raised by `Response.json()` on a body that is not valid JSON). -/
inductive PyExc where
  | keyError
  | indexError
  | typeError
  | jsonDecodeError
deriving Repr, DecidableEq

/-- The projection of a `requests.Response` that `IsElastic.run` reads:
`response.status_code`, the two header lookups it performs
(`response.headers["content-type"]` and `response.headers["X-elastic-product"]`,
`none` when the header is missing, i.e. the lookup raises `KeyError`),
`response.text`, and the result of `response.json()` (`none` when the body
does not parse as JSON, i.e. the call raises `JSONDecodeError`). -/
structure Response where
  status_code : Nat
  content_type : Option String
  x_elastic_product : Option String
  text : String
  jsonBody : Option Json

/-- `startsWithList n h` is true iff the char list `n` is an initial
segment of `h`. Helper for Python's substring operator `in`. -/
def startsWithList : List Char → List Char → Bool
  | [], _ => true
  | _ :: _, [] => false
  | a :: as, b :: bs => a == b && startsWithList as bs

/-- `containsSubList n h` is true iff `n` occurs contiguously in `h`. -/
def containsSubList (needle : List Char) : List Char → Bool
  | [] => startsWithList needle []
  | c :: cs => startsWithList needle (c :: cs) || containsSubList needle cs

/-- Python's `needle in hay` on strings. -/
def containsSub (needle hay : String) : Bool :=
  containsSubList needle.data hay.data

/-- `IsElastic._check_text` (is_elastic.py line 37):
`"elasticsearch" in response.text.lower()`. Lower-casing is done
character by character with `Char.toLower`; the token searched for is
ASCII, so this matches Python's `str.lower` on the inputs that matter. -/
def check_text (r : Response) : Bool :=
  containsSubList "elasticsearch".data (r.text.data.map Char.toLower)

/-- Python `j[k]` for a string key `k`: on a dict, look the key up and raise
`KeyError` when missing; on every other JSON value (list, string, number,
bool, None) a string subscript raises `TypeError`. -/
def pyGetKey (j : Json) (k : String) : Except PyExc Json :=
  match j with
  | .obj fields =>
    match fields.lookup k with
    | some v => .ok v
    | none => .error .keyError
  | _ => .error .typeError

/-- Python `j[i]` for an integer index `i`: on a list, index (raising
`IndexError` out of range); on a string, index into its characters
(a 1-character string results); on a dict, an integer key is never among
the string keys produced by the JSON parser, so `KeyError`; on a number,
bool or None, `TypeError`. -/
def pyGetIdx (j : Json) (i : Nat) : Except PyExc Json :=
  match j with
  | .arr elems =>
    match elems.get? i with
    | some v => .ok v
    | none => .error .indexError
  | .str s =>
    match s.data.get? i with
    | some c => .ok (.str (String.mk [c]))
    | none => .error .indexError
  | .obj _ => .error .keyError
  | _ => .error .typeError

/-- The navigation `response_json["error"]["root_cause"][0]["type"]`
performed on is_elastic.py line 74, with Python's exception semantics. -/
def rootCauseType (j : Json) : Except PyExc Json := do
  let e ← pyGetKey j "error"
  let rc ← pyGetKey e "root_cause"
  let first ← pyGetIdx rc 0
  pyGetKey first "type"

/-- Python `j == s` comparing a JSON value against a string literal:
true exactly when `j` is that string; comparisons against values of other
types are `False` without raising. -/
def jsonEqStr (j : Json) (s : String) : Bool :=
  match j with
  | .str t => t == s
  | _ => false

/-- Message printed on is_elastic.py lines 62, 65 and 89. -/
def msgNotRunning : String := "The host is not running ElasticSearch"

/-- Message printed on is_elastic.py lines 73, 83 and 86. -/
def msgRunning : String := "The host is running ElasticSearch"

/-- Message printed on is_elastic.py line 75. -/
def msgMightBeRunning : String := "The host might be running ElasticSearch"

/-- Message printed on is_elastic.py line 77. -/
def msgProbablyNotRunning : String := "The host is probably not running ElasticSearch"

/-- The content-type gate of is_elastic.py lines 60–66, as a signal:
true iff the `content-type` header is present and contains the substring
`application/json`. -/
def hasJsonContentType (r : Response) : Bool :=
  match r.content_type with
  | none => false
  | some ct => containsSub "application/json" ct

/-- The classification logic of `IsElastic.run` (is_elastic.py lines 60–89),
from the already-received response to the list of verdict lines it prints.
`Except.error` is an exception escaping `run` uncaught:

* lines 60–66: the `content-type` gate, whose `KeyError` (header missing)
  is caught and treated like a non-JSON content type;
* lines 68–78: the 401 branch — `response.json()` is called OUTSIDE the
  `try` (line 69) so a parse failure propagates; inside the `try`, only
  `KeyError` is handled (line 76), so `IndexError`/`TypeError` from the
  `error.root_cause[0].type` navigation propagate; a navigation result
  different from `"security_exception"` prints nothing;
* lines 80–86: the 200 branch — a present header with a value other than
  `Elasticsearch` prints nothing (the `except KeyError` body, which falls
  back to the body-text check, runs only when the header is missing);
* lines 88–89: every other status prints the not-running line. -/
def isElasticRun (r : Response) : Except PyExc (List String) :=
  match r.content_type with
  | none => .ok [msgNotRunning]
  | some ct =>
    if containsSub "application/json" ct = false then
      .ok [msgNotRunning]
    else if r.status_code = 401 then
      match r.jsonBody with
      | none => .error .jsonDecodeError
      | some j =>
        if check_text r then
          .ok [msgRunning]
        else
          match rootCauseType j with
          | .ok t =>
            if jsonEqStr t "security_exception" then .ok [msgMightBeRunning]
            else .ok []
          | .error .keyError => .ok [msgProbablyNotRunning]
          | .error e => .error e
    else if r.status_code = 200 then
      match r.x_elastic_product with
      | some v => if v = "Elasticsearch" then .ok [msgRunning] else .ok []
      | none => if check_text r then .ok [msgRunning] else .ok []
    else
      .ok [msgNotRunning]

/-! ## `SwTest.run` (sw.py lines 144–173)

The three enumerations `_get_es_version`, `_get_modules`, `_get_plugins`
each perform network and JSON work of their own and can either return a
`Bool` or raise; `run` is parametric in their outcomes, which we model as
`Except String Bool` (the `String` is the text of the raised exception,
interpolated into the error line). -/

/-- One `try: flag = enum() except Exception as e: ptprint(...)` block of
`SwTest.run`: a raised exception is caught, the flag keeps its initial
`False` value, and an error line is printed. Returns the flag value and
the lines printed by the block. -/
def pyTryEnum (r : Except String Bool) (errPref : String) : Bool × List String :=
  match r with
  | .ok b => (b, [])
  | .error e => (false, [errPref ++ e])

/-- `True` exactly when the enumeration ran to completion and returned
`True` (a raised exception leaves the corresponding flag `False`). -/
def enumReturnedTrue : Except String Bool → Bool
  | .ok b => b
  | .error _ => false

/-- The error line printed for an enumeration outcome: one line when it
raised, nothing when it returned. -/
def errLineOf (pref : String) : Except String Bool → List String
  | .ok _ => []
  | .error e => [pref ++ e]

/-- Result of `SwTest.run`: the error lines printed by the three handler
blocks, and whether `PTV-WEB-MISC-TECH` was added to the report. -/
structure SwOutcome where
  printed : List String
  vulnAdded : Bool
deriving Repr, DecidableEq

/-- `SwTest.run` (sw.py lines 152–173): initialise the three flags to
`False`, run each enumeration inside its own `try/except Exception`
block, and add the `PTV-WEB-MISC-TECH` vulnerability when
`plugins or modules or es_version`. The result type is `Except` so that
an exception escaping `run` itself would be visible; the handlers make
that impossible. -/
def swRun (esVersionRes modulesRes pluginsRes : Except String Bool) :
    Except String SwOutcome :=
  let p1 := pyTryEnum esVersionRes "Error when enumerating es version: "
  let p2 := pyTryEnum modulesRes "Error when enumerating modules: "
  let p3 := pyTryEnum pluginsRes "Error when enumerating plugins: "
  .ok { printed := p1.2 ++ p2.2 ++ p3.2
        vulnAdded := p3.1 || p2.1 || p1.1 }

/-! ## `Users.run` / `Users._print_user` (users.py lines 70–124)

The roles dictionary for one user is built on users.py line 120 as
`dict([(role_name, privileges) for role_name, privileges in
zip(user['roles'], [[]])])`: the user's roles list is zipped against the
single-element list `[[]]`. A dictionary built from at most one pair is
modelled as the association list of those pairs. -/

/-- An entry later appended to a role's privilege list by
`_check_privileges`; its shape is irrelevant to the claims, only the
list structure of the dictionary matters. -/
structure PrivEntry where
  name : String
  privileges : List String
deriving Repr, DecidableEq

/-- users.py line 120: `zip(user['roles'], [[]])`, turned into a dict.
`zip` stops at the shorter argument, and the second argument has exactly
one element (an empty privileges list). -/
def zipRoles (roles : List String) : List (String × List PrivEntry) :=
  roles.zip [([] : List PrivEntry)]

/-- The role names printed by `_print_user` (users.py lines 80–86):
it iterates over `set(user_properties["roles"])`, i.e. the keys of the
roles dictionary. -/
def printedRoles (d : List (String × List PrivEntry)) : List String :=
  d.map Prod.fst

end Ptelastic

deriving instance DecidableEq for Except

namespace Ptelastic

/-! ## Concrete responses used by witnesses and counterexamples -/

/-- Scenario A of the spec: 401 with the product's structured
security-exception body, body text without the product name. -/
def scenarioA : Response :=
  { status_code := 401
    content_type := some "application/json; charset=utf-8"
    x_elastic_product := none
    text := "\x7b\"error\":\x7b\"root_cause\":[\x7b\"type\":\"security_exception\"\x7d]\x7d\x7d"
    jsonBody := some (Json.obj [("error", Json.obj [("root_cause",
      Json.arr [Json.obj [("type", Json.str "security_exception")]])])]) }

/-- Scenario B of the spec: 200 with the product-identity header and a
body that does not mention the product. -/
def scenarioB : Response :=
  { status_code := 200
    content_type := some "application/json"
    x_elastic_product := some "Elasticsearch"
    text := "\x7b\x7d"
    jsonBody := some (Json.obj []) }

/-- Scenario C of the spec: a `text/html` 200 response whose body
mentions the product. -/
def scenarioC : Response :=
  { status_code := 200
    content_type := some "text/html"
    x_elastic_product := none
    text := "<html>Elasticsearch dashboard</html>"
    jsonBody := none }

/-- Scenario D of the spec: a JSON 404 response. -/
def scenarioD : Response :=
  { status_code := 404
    content_type := some "application/json"
    x_elastic_product := none
    text := "\x7b\"error\":\"not found\"\x7d"
    jsonBody := some (Json.obj [("error", Json.str "not found")]) }

/-- A 401 JSON response whose `error.root_cause` is the empty list, so
the index `[0]` on is_elastic.py line 74 raises `IndexError`. -/
def respEmptyRootCause : Response :=
  { status_code := 401
    content_type := some "application/json"
    x_elastic_product := none
    text := "\x7b\"error\":\x7b\"root_cause\":[]\x7d\x7d"
    jsonBody := some (Json.obj [("error", Json.obj [("root_cause", Json.arr [])])]) }

/-- A 401 response with JSON content-type whose plain-text body does not
parse as JSON but does contain `elasticsearch`. -/
def respUnparseable401 : Response :=
  { status_code := 401
    content_type := some "application/json"
    x_elastic_product := none
    text := "elasticsearch: missing authentication credentials"
    jsonBody := none }

/-- A 401 JSON response whose `error.root_cause[0].type` is a value
other than `security_exception` and whose body does not mention the
product. -/
def respOtherType401 : Response :=
  { status_code := 401
    content_type := some "application/json"
    x_elastic_product := none
    text := "\x7b\"error\":\x7b\"root_cause\":[\x7b\"type\":\"index_not_found_exception\"\x7d]\x7d\x7d"
    jsonBody := some (Json.obj [("error", Json.obj [("root_cause",
      Json.arr [Json.obj [("type", Json.str "index_not_found_exception")]])])]) }

/-- A 401 JSON response whose `error` object lacks the `root_cause` key,
so the navigation raises `KeyError` (which is_elastic.py line 76 catches). -/
def respNoRootCauseKey : Response :=
  { status_code := 401
    content_type := some "application/json"
    x_elastic_product := none
    text := "\x7b\"error\":\x7b\x7d\x7d"
    jsonBody := some (Json.obj [("error", Json.obj [])]) }

/-- A 200 JSON response whose `X-elastic-product` header is present with
a value other than `Elasticsearch`, while the body mentions the product. -/
def respForeignHeader200 : Response :=
  { status_code := 200
    content_type := some "application/json"
    x_elastic_product := some "OpenSearch"
    text := "\x7b\"name\":\"elasticsearch-node-1\"\x7d"
    jsonBody := some (Json.obj [("name", Json.str "elasticsearch-node-1")]) }

/-- A 200 JSON response without the product header whose body mentions
the product. -/
def respNoHeader200 : Response :=
  { status_code := 200
    content_type := some "application/json"
    x_elastic_product := none
    text := "\x7b\"tagline\":\"You Know, for Search\",\"product\":\"elasticsearch\"\x7d"
    jsonBody := some (Json.obj [("tagline", Json.str "You Know, for Search"),
      ("product", Json.str "elasticsearch")]) }

/-- A 200 JSON response without the product header whose body does not
mention the product. -/
def respBare200 : Response :=
  { status_code := 200
    content_type := some "application/json"
    x_elastic_product := none
    text := "\x7b\"tagline\":\"You Know, for Search\"\x7d"
    jsonBody := some (Json.obj [("tagline", Json.str "You Know, for Search")]) }

/-! ## Claims -/

/-- Claim C4: for every response whose content-type header is absent or
does not declare a JSON media type, `IsElastic.run` returns the
not-running (NotDetected) verdict regardless of status code, product
header, body text, or structured error shape. -/
theorem run_nonjson_notDetected (r : Response)
    (h : hasJsonContentType r = false) :
    isElasticRun r = Except.ok [msgNotRunning] := by
  obtain ⟨sc, cty, xep, tx, jb⟩ := r
  unfold hasJsonContentType at h
  cases hcteq : cty with
  | none => subst hcteq; simp [isElasticRun]
  | some ct =>
    subst hcteq
    simp only at h
    simp [isElasticRun, h]

/-- Witness for C4 at Scenario C: a `text/html` 200 response whose body
contains `Elasticsearch` is still classified as not running. -/
theorem run_nonjson_notDetected_witness :
    hasJsonContentType scenarioC = false ∧ scenarioC.status_code = 200 ∧
    check_text scenarioC = true ∧
    isElasticRun scenarioC = Except.ok [msgNotRunning] :=
  ⟨rfl, rfl, rfl, run_nonjson_notDetected scenarioC rfl⟩

/-- Claim C7: for every response with JSON content-type, status 200 and
`X-elastic-product` header equal to `Elasticsearch`, `IsElastic.run`
prints the running (Confirmed) verdict, even when the body does not
mention the product. -/
theorem run200_header_confirmed (r : Response) (ct : String)
    (hcteq : r.content_type = some ct)
    (hct : containsSub "application/json" ct = true)
    (hs : r.status_code = 200)
    (hh : r.x_elastic_product = some "Elasticsearch") :
    isElasticRun r = Except.ok [msgRunning] := by
  obtain ⟨sc, cty, xep, tx, jb⟩ := r
  simp only at hcteq hs hh
  subst hcteq hs hh
  simp [isElasticRun, hct]

/-- Witness for C7 at Scenario B: 200, `application/json`,
`X-elastic-product: Elasticsearch`, body not mentioning the product. -/
theorem run200_header_confirmed_witness :
    check_text scenarioB = false ∧
    isElasticRun scenarioB = Except.ok [msgRunning] :=
  ⟨rfl, run200_header_confirmed scenarioB "application/json" rfl rfl rfl rfl⟩

/-- Claim C6: for every response with JSON content-type, status 401,
body not mentioning the product, and `error.root_cause[0].type` equal to
`security_exception`, `IsElastic.run` prints the might-be-running
(Likely) verdict. -/
theorem run401_securityException_likely (r : Response) (ct : String) (j : Json)
    (hcteq : r.content_type = some ct)
    (hct : containsSub "application/json" ct = true)
    (hs : r.status_code = 401)
    (htext : check_text r = false)
    (hj : r.jsonBody = some j)
    (hnav : rootCauseType j = Except.ok (Json.str "security_exception")) :
    isElasticRun r = Except.ok [msgMightBeRunning] := by
  obtain ⟨sc, cty, xep, tx, jb⟩ := r
  simp only at hcteq hs hj htext
  subst hcteq hs hj
  simp [isElasticRun, hct, htext, hnav, jsonEqStr]

/-- Witness for C6 at Scenario A: 401 with the structured
security-exception body results in the Likely verdict. -/
theorem run401_securityException_likely_witness :
    check_text scenarioA = false ∧
    isElasticRun scenarioA = Except.ok [msgMightBeRunning] :=
  ⟨rfl, run401_securityException_likely scenarioA "application/json; charset=utf-8"
    (Json.obj [("error", Json.obj [("root_cause",
      Json.arr [Json.obj [("type", Json.str "security_exception")]])])])
    rfl rfl rfl rfl rfl rfl⟩

/-- Claim C8: for every response with JSON content-type and a status
code outside 200 and 401, `IsElastic.run` prints the not-running
(NotDetected) verdict regardless of header, body text, or error shape. -/
theorem run_otherStatus_notDetected (r : Response) (ct : String)
    (hcteq : r.content_type = some ct)
    (hct : containsSub "application/json" ct = true)
    (h401 : r.status_code ≠ 401)
    (h200 : r.status_code ≠ 200) :
    isElasticRun r = Except.ok [msgNotRunning] := by
  obtain ⟨sc, cty, xep, tx, jb⟩ := r
  simp only at hcteq h401 h200
  subst hcteq
  simp [isElasticRun, hct, h401, h200]

/-- Witness for C8 at Scenario D: a JSON 404 response is classified as
not running. -/
theorem run_otherStatus_notDetected_witness :
    scenarioD.status_code = 404 ∧
    isElasticRun scenarioD = Except.ok [msgNotRunning] :=
  ⟨rfl, run_otherStatus_notDetected scenarioD "application/json" rfl rfl
    (by decide) (by decide)⟩

/-- Claim C1 (code bug): the spec promises that the classification never
raises for data-shape problems, but `IsElastic.run` evaluates
`response.json()` outside the `try` and its handler catches only
`KeyError`: on a 401 JSON response whose `error.root_cause` is the empty
list the navigation raises an uncaught `IndexError`, and on a 401
response whose body is not valid JSON `response.json()` raises an
uncaught `JSONDecodeError`; in neither case is a verdict emitted. -/
theorem run401_shape_raises :
    (hasJsonContentType respEmptyRootCause = true ∧
      respEmptyRootCause.status_code = 401 ∧
      isElasticRun respEmptyRootCause = Except.error PyExc.indexError) ∧
    (hasJsonContentType respUnparseable401 = true ∧
      respUnparseable401.status_code = 401 ∧
      respUnparseable401.jsonBody = none ∧
      isElasticRun respUnparseable401 = Except.error PyExc.jsonDecodeError) :=
  ⟨⟨rfl, rfl, rfl⟩, ⟨rfl, rfl, rfl, rfl⟩⟩

/-- Claim C5 (code bug): the claim promises Confirmed for a 401 whose
body mentions the product independent of the presence of the structured
error signal, but when that signal is absent because the body is not
valid JSON, `response.json()` on is_elastic.py line 69 raises before the
body-text check is reached, so no Confirmed verdict is emitted. -/
theorem run401_productBody_unparseable_raises :
    hasJsonContentType respUnparseable401 = true ∧
    respUnparseable401.status_code = 401 ∧
    check_text respUnparseable401 = true ∧
    isElasticRun respUnparseable401 = Except.error PyExc.jsonDecodeError :=
  ⟨rfl, rfl, rfl, rfl⟩

/-- Counterexample to claim C2: a 401 JSON response whose body does not
mention the product and whose `error.root_cause[0].type` is
`index_not_found_exception` satisfies the claim's hypotheses, yet
`IsElastic.run` prints nothing at all — no NotDetected verdict. -/
theorem run401_otherType_silent_cex :
    hasJsonContentType respOtherType401 = true ∧
    respOtherType401.status_code = 401 ∧
    check_text respOtherType401 = false ∧
    (∃ j, respOtherType401.jsonBody = some j ∧
      rootCauseType j = Except.ok (Json.str "index_not_found_exception")) ∧
    isElasticRun respOtherType401 = Except.ok [] ∧
    isElasticRun respOtherType401 ≠ Except.ok [msgNotRunning] :=
  ⟨rfl, rfl, rfl, ⟨_, rfl, rfl⟩, rfl, by decide⟩

/-- Claim C2 as amended: for a 401 JSON response whose body does not
mention the product, when the `error.root_cause[0].type` navigation
succeeds with any value other than `security_exception` the
classification ends silently with no verdict, and when the navigation
fails with `KeyError` the probably-not-running message is printed. -/
theorem run401_noMarker_amended (r : Response) (ct : String) (j : Json)
    (hcteq : r.content_type = some ct)
    (hct : containsSub "application/json" ct = true)
    (hs : r.status_code = 401)
    (htext : check_text r = false)
    (hj : r.jsonBody = some j) :
    (∀ t, rootCauseType j = Except.ok t →
      jsonEqStr t "security_exception" = false →
      isElasticRun r = Except.ok []) ∧
    (rootCauseType j = Except.error PyExc.keyError →
      isElasticRun r = Except.ok [msgProbablyNotRunning]) := by
  obtain ⟨sc, cty, xep, tx, jb⟩ := r
  simp only at hcteq hs hj htext
  subst hcteq hs hj
  constructor
  · intro t hnav hne
    simp [isElasticRun, hct, htext, hnav, hne]
  · intro hnav
    simp [isElasticRun, hct, htext, hnav]

/-- Witness for the amended C2, applying it to the silent other-type
response and to a response whose `error` object lacks `root_cause`. -/
theorem run401_noMarker_amended_witness :
    isElasticRun respOtherType401 = Except.ok [] ∧
    isElasticRun respNoRootCauseKey = Except.ok [msgProbablyNotRunning] :=
  ⟨(run401_noMarker_amended respOtherType401 "application/json"
      (Json.obj [("error", Json.obj [("root_cause",
        Json.arr [Json.obj [("type", Json.str "index_not_found_exception")]])])])
      rfl rfl rfl rfl rfl).1 (Json.str "index_not_found_exception") rfl rfl,
   (run401_noMarker_amended respNoRootCauseKey "application/json"
      (Json.obj [("error", Json.obj [])])
      rfl rfl rfl rfl rfl).2 rfl⟩

/-- Counterexample to claim C3: a 200 JSON response whose
`X-elastic-product` header is present with value `OpenSearch` and whose
body mentions the product satisfies the claim's hypotheses for the
Confirmed case, yet `IsElastic.run` prints nothing: the body-text
fallback on is_elastic.py lines 84–86 runs only inside the
`except KeyError` handler, i.e. only when the header is missing. -/
theorem run200_foreignHeader_silent_cex :
    hasJsonContentType respForeignHeader200 = true ∧
    respForeignHeader200.status_code = 200 ∧
    respForeignHeader200.x_elastic_product = some "OpenSearch" ∧
    check_text respForeignHeader200 = true ∧
    isElasticRun respForeignHeader200 = Except.ok [] ∧
    isElasticRun respForeignHeader200 ≠ Except.ok [msgRunning] :=
  ⟨rfl, rfl, rfl, rfl, rfl, by decide⟩

/-- Claim C3 as amended: for a 200 JSON response, when the product
header is absent the body-text check decides between the running
(Confirmed) verdict and silence; when the product header is present
with any value other than `Elasticsearch`, nothing is printed at all,
regardless of the body. In no sub-case is a NotDetected line emitted. -/
theorem run200_amended (r : Response) (ct : String)
    (hcteq : r.content_type = some ct)
    (hct : containsSub "application/json" ct = true)
    (hs : r.status_code = 200) :
    (r.x_elastic_product = none → check_text r = true →
      isElasticRun r = Except.ok [msgRunning]) ∧
    (∀ v, r.x_elastic_product = some v → v ≠ "Elasticsearch" →
      isElasticRun r = Except.ok []) ∧
    (r.x_elastic_product = none → check_text r = false →
      isElasticRun r = Except.ok []) := by
  obtain ⟨sc, cty, xep, tx, jb⟩ := r
  simp only at hcteq hs
  subst hcteq hs
  refine ⟨?_, ?_, ?_⟩
  · intro hh htext
    simp only at hh htext
    subst hh
    simp [isElasticRun, hct, htext]
  · intro v hh hne
    simp only at hh
    subst hh
    simp [isElasticRun, hct, hne]
  · intro hh htext
    simp only at hh htext
    subst hh
    simp [isElasticRun, hct, htext]

/-- Witness for the amended C3 at the three sub-cases: header absent
with product in the body, header present with a foreign value, and
header absent without product mention. -/
theorem run200_amended_witness :
    isElasticRun respNoHeader200 = Except.ok [msgRunning] ∧
    isElasticRun respForeignHeader200 = Except.ok [] ∧
    isElasticRun respBare200 = Except.ok [] :=
  ⟨(run200_amended respNoHeader200 "application/json" rfl rfl rfl).1 rfl rfl,
   (run200_amended respForeignHeader200 "application/json" rfl rfl rfl).2.1
      "OpenSearch" rfl (by decide),
   (run200_amended respBare200 "application/json" rfl rfl rfl).2.2 rfl rfl⟩

/-- Claim C9: `SwTest.run` wraps each of the three enumerations in its
own `try/except Exception` handler, so whatever each enumeration does —
return a boolean or raise — `run` itself never raises, every failing
enumeration contributes exactly its error line (so an exception in one
never prevents the later enumerations from being attempted and their
output recorded), and the `PTV-WEB-MISC-TECH` vulnerability is added to
the report if and only if at least one enumeration returned `True`. -/
theorem swRun_isolated_handlers (ev md pl : Except String Bool) :
    ∃ out : SwOutcome,
      swRun ev md pl = Except.ok out ∧
      (out.vulnAdded = true ↔
        (ev = Except.ok true ∨ md = Except.ok true ∨ pl = Except.ok true)) ∧
      out.printed =
        errLineOf "Error when enumerating es version: " ev ++
        errLineOf "Error when enumerating modules: " md ++
        errLineOf "Error when enumerating plugins: " pl := by
  refine ⟨_, rfl, ?_, ?_⟩ <;>
    rcases ev with e1 | b1 <;> rcases md with e2 | b2 <;> rcases pl with e3 | b3 <;>
      simp [swRun, pyTryEnum, errLineOf] <;> tauto

/-- Claim C10: the roles dictionary that `Users.run` builds with
`zip(user['roles'], [[]])` keeps at most one role — the first element
of the user's roles list, mapped to an empty privileges list — and the
role names printed by `_print_user` are exactly that at-most-singleton
key set; a user with an empty roles list has no role recorded. -/
theorem zipRoles_at_most_one_role (roles : List String) :
    zipRoles roles = (roles.take 1).map (fun r => (r, ([] : List PrivEntry))) ∧
    printedRoles (zipRoles roles) = roles.take 1 ∧
    (zipRoles roles).length ≤ 1 := by
  cases roles <;> simp [zipRoles, printedRoles]

end Ptelastic
